import Mathlib

/-!
Verification of the confusion-metrics library (src/src/index.ts).

Embedding conventions:
* JavaScript numbers are modelled as `JSNum := Option ℚ`, where `none` is the
  IEEE NaN sentinel and `some q` a finite value.  Arithmetic on finite values
  is exact rational arithmetic (the library only adds, multiplies, subtracts
  and divides integers or quotients thereof; round-off is abstracted away).
  NaN absorbs through every operation, exactly as in IEEE arithmetic.
* `Math.sqrt` is modelled by `jsSqrt`: NaN for NaN or negative input, and
  `Rat.sqrt` otherwise, which agrees with `Math.sqrt` on perfect squares
  (in particular at `0`, the only point any claim evaluates it).
* A thrown `Error` is modelled by `Except String`, carrying the message.
* The label values handled by `computeCountsFromLabels` are modelled by the
  sum type `Label`: booleans, numbers (with NaN), strings, and a catch-all
  `other` constructor carrying a reference id, standing for any value whose
  `typeof` is none of `"boolean" | "number" | "string"` (objects, `null`,
  `undefined`, ...).  JavaScript strict equality `===` becomes `jsEq`:
  payload equality within one kind, `false` across kinds, and never true
  on NaN.
-/

/-- A JavaScript number: `none` is NaN, `some q` a finite value. -/
abbrev JSNum : Type := Option ℚ

/-- Finite JS number literal. -/
def JSNum.fin (q : ℚ) : JSNum := some q

/-- JS `NaN`. -/
def JSNum.nan : JSNum := none

/-- Whether a JS number is NaN. -/
def JSNum.isNaN (x : JSNum) : Bool := x = none

/-- JS binary arithmetic on numbers: NaN absorbs, otherwise exact. -/
def jsBin (f : ℚ → ℚ → ℚ) : JSNum → JSNum → JSNum
  | some a, some b => some (f a b)
  | _, _ => none

/-- JS `+` on numbers. -/
def jsAdd : JSNum → JSNum → JSNum := jsBin (· + ·)

/-- JS `-` on numbers. -/
def jsSub : JSNum → JSNum → JSNum := jsBin (· - ·)

/-- JS `*` on numbers. -/
def jsMul : JSNum → JSNum → JSNum := jsBin (· * ·)

/-- `Math.sqrt`: NaN on NaN or negative input, else the (exact, for perfect
squares) square root. -/
def jsSqrt : JSNum → JSNum
  | none => none
  | some q => if q < 0 then none else some (Rat.sqrt q)

/-- `const divide = (numerator, denominator) => denominator === 0 ? Number.NaN
: numerator / denominator;` — the `=== 0` test is false for NaN denominators,
and division by a NaN then yields NaN. -/
def divide (numerator denominator : JSNum) : JSNum :=
  match denominator with
  | none => none
  | some d => if d = 0 then none else numerator.map (· / d)

/-- `interface ConfusionCounts { tp; tn; fp; fn }` -/
structure ConfusionCounts where
  tp : JSNum
  tn : JSNum
  fp : JSNum
  fn : JSNum
deriving DecidableEq, Inhabited

/-- Counts built from four non-negative integers, as produced by the label
classifier (its accumulators start at `0` and are only incremented). -/
def mkCounts (tp tn fp fn : ℕ) : ConfusionCounts :=
  ⟨some (tp : ℚ), some (tn : ℚ), some (fp : ℚ), some (fn : ℚ)⟩

/-- `interface ConfusionMetrics extends ConfusionCounts { ... }`.
The TS field `for` is spelled `forRate` (`for` is a Lean keyword). -/
structure ConfusionMetrics extends ConfusionCounts where
  total : JSNum
  prevalence : JSNum
  tpr : JSNum
  fpr : JSNum
  fnr : JSNum
  tnr : JSNum
  ppv : JSNum
  npv : JSNum
  lrPlus : JSNum
  lrMinus : JSNum
  accuracy : JSNum
  fdr : JSNum
  forRate : JSNum
  markedness : JSNum
  dor : JSNum
  balancedAccuracy : JSNum
  f1 : JSNum
  fm : JSNum
  mcc : JSNum
  ts : JSNum
deriving DecidableEq, Inhabited

/-- A value a label array may contain.  `other n` stands for any value of a
non-boolean/number/string type; `n` is its reference identity. -/
inductive Label : Type
  | bool (b : Bool)
  | num (x : JSNum)
  | str (s : String)
  | other (n : ℕ)
deriving DecidableEq, Inhabited

/-- JavaScript strict equality `===` on label values: true only within one
kind with equal payloads, and never true when either side is NaN. -/
def jsEq : Label → Label → Bool
  | .bool a, .bool b => a = b
  | .num (some a), .num (some b) => a = b
  | .num _, .num _ => false
  | .str a, .str b => a = b
  | .other a, .other b => a = b
  | _, _ => false

/-- The `isPositive` closure of `computeCountsFromLabels`.  `positiveValue =
none` models an absent (or `undefined`) third argument, making the
`positiveValue !== undefined` guard fail. -/
def isPositive (positiveValue : Option Label) (value : Label) : Bool :=
  match positiveValue with
  | some pv => jsEq value pv
  | none =>
    match value with
    | .bool b => b = true
    | .num x => x = some (1 : ℚ)
    | .str s => s = "1" || s.toLower = "true"
    | .other _ => false

/-- The counting loop of `computeCountsFromLabels`: classify each index into
one of the four buckets `(tp, tn, fp, fn)`.  The loop walks the paired
elements once, incrementing exactly one bucket per index; bucket totals do
not depend on traversal order, so structural recursion models it. -/
def countLoop (pos : Label → Bool) : List (Label × Label) → ℕ × ℕ × ℕ × ℕ
  | [] => (0, 0, 0, 0)
  | (x, y) :: rest =>
    let r := countLoop pos rest
    if pos x && pos y then (r.1 + 1, r.2.1, r.2.2.1, r.2.2.2)
    else if pos x && !pos y then (r.1, r.2.1, r.2.2.1 + 1, r.2.2.2)
    else if !pos x && pos y then (r.1, r.2.1, r.2.2.1, r.2.2.2 + 1)
    else (r.1, r.2.1 + 1, r.2.2.1, r.2.2.2)

/-- `export function computeCountsFromLabels(predicted, actual,
positiveValue?)`: throws on length mismatch, else counts the four buckets
over the paired elements. -/
def computeCountsFromLabels (predicted actual : List Label)
    (positiveValue : Option Label) : Except String ConfusionCounts :=
  if predicted.length ≠ actual.length then
    .error "predicted and actual must have the same length"
  else
    let r := countLoop (isPositive positiveValue) (predicted.zip actual)
    .ok (mkCounts r.1 r.2.1 r.2.2.1 r.2.2.2)

/-- `export function computeMetricsFromCounts(counts)` — the metric
calculator, line for line. -/
def computeMetricsFromCounts (counts : ConfusionCounts) : ConfusionMetrics :=
  let tp := counts.tp
  let tn := counts.tn
  let fp := counts.fp
  let fn := counts.fn
  let positive := jsAdd tp fn
  let negative := jsAdd tn fp
  let total := jsAdd positive negative
  let tpr := divide tp positive
  let fnr := divide fn positive
  let tnr := divide tn negative
  let fpr := divide fp negative
  let ppv := divide tp (jsAdd tp fp)
  let npv := divide tn (jsAdd tn fn)
  let prevalence := divide positive total
  let accuracy := divide (jsAdd tp tn) total
  let fdr := jsSub (JSNum.fin 1) ppv
  let forRate := jsSub (JSNum.fin 1) npv
  let markedness := jsSub (jsAdd ppv npv) (JSNum.fin 1)
  let lrPlus := divide tpr fpr
  let lrMinus := divide fnr tnr
  let dor := divide (jsMul tp tn) (jsMul fp fn)
  let balancedAccuracy := (jsAdd tpr tnr).map (· / 2)
  let f1 := divide (jsMul (JSNum.fin 2) tp)
    (jsAdd (jsAdd (jsMul (JSNum.fin 2) tp) fp) fn)
  let fm := jsSqrt (jsMul ppv tpr)
  let mcc := divide (jsSub (jsMul tp tn) (jsMul fp fn))
    (jsSqrt (jsMul (jsMul (jsAdd tp fp) (jsAdd tp fn))
      (jsMul (jsAdd tn fp) (jsAdd tn fn))))
  let ts := divide tp (jsAdd (jsAdd tp fp) fn)
  { tp := tp, tn := tn, fp := fp, fn := fn, total := total,
    prevalence := prevalence, tpr := tpr, fpr := fpr, fnr := fnr, tnr := tnr,
    ppv := ppv, npv := npv, lrPlus := lrPlus, lrMinus := lrMinus,
    accuracy := accuracy, fdr := fdr, forRate := forRate,
    markedness := markedness, dor := dor,
    balancedAccuracy := balancedAccuracy, f1 := f1, fm := fm, mcc := mcc,
    ts := ts }

/-- `export function computeMetricsFromLabels(predicted, actual,
positiveValue?)` — the facade: classify, then compute metrics; a thrown
length-mismatch error propagates unchanged. -/
def computeMetricsFromLabels (predicted actual : List Label)
    (positiveValue : Option Label) : Except String ConfusionMetrics :=
  match computeCountsFromLabels predicted actual positiveValue with
  | .error e => .error e
  | .ok counts => .ok (computeMetricsFromCounts counts)

/-- Spec section 4.2, transcribed from its formula block (for the refinement
claim C1): every ratio goes through `divide`; `fdr` and `for` are direct
subtractions. -/
def specMetricsFromCounts (counts : ConfusionCounts) : ConfusionMetrics :=
  let tp := counts.tp
  let tn := counts.tn
  let fp := counts.fp
  let fn := counts.fn
  let positive := jsAdd tp fn
  let negative := jsAdd tn fp
  let total := jsAdd positive negative
  let tpr := divide tp positive
  let fnr := divide fn positive
  let tnr := divide tn negative
  let fpr := divide fp negative
  let ppv := divide tp (jsAdd tp fp)
  let npv := divide tn (jsAdd tn fn)
  { tp := tp, tn := tn, fp := fp, fn := fn,
    total := total,
    tpr := tpr, fnr := fnr, tnr := tnr, fpr := fpr,
    ppv := ppv, npv := npv,
    prevalence := divide positive total,
    accuracy := divide (jsAdd tp tn) total,
    fdr := jsSub (JSNum.fin 1) ppv,
    forRate := jsSub (JSNum.fin 1) npv,
    markedness := jsSub (jsAdd ppv npv) (JSNum.fin 1),
    lrPlus := divide tpr fpr,
    lrMinus := divide fnr tnr,
    dor := divide (jsMul tp tn) (jsMul fp fn),
    balancedAccuracy := (jsAdd tpr tnr).map (· / 2),
    f1 := divide (jsMul (JSNum.fin 2) tp)
      (jsAdd (jsAdd (jsMul (JSNum.fin 2) tp) fp) fn),
    fm := jsSqrt (jsMul ppv tpr),
    mcc := divide (jsSub (jsMul tp tn) (jsMul fp fn))
      (jsSqrt (jsMul (jsMul (jsAdd tp fp) (jsAdd tp fn))
        (jsMul (jsAdd tn fp) (jsAdd tn fn)))),
    ts := divide tp (jsAdd (jsAdd tp fp) fn) }

/-- The positivity rule as claim C2 words it: strict equality against a
supplied `positiveValue`; otherwise `true` for booleans, `1` for numbers,
`"1"` or case-insensitive `"true"` for strings, negative for anything else. -/
def claimPositive (positiveValue : Option Label) (value : Label) : Bool :=
  match positiveValue with
  | some pv => jsEq value pv
  | none =>
    match value with
    | .bool b => b
    | .num x => x = some (1 : ℚ)
    | .str s => s = "1" || s.toLower = "true"
    | .other _ => false

/-! ## Helper lemmas -/

lemma metrics_total (c : ConfusionCounts) :
    (computeMetricsFromCounts c).total = jsAdd (jsAdd c.tp c.fn) (jsAdd c.tn c.fp) := rfl

lemma metrics_tpr (c : ConfusionCounts) :
    (computeMetricsFromCounts c).tpr = divide c.tp (jsAdd c.tp c.fn) := rfl

lemma metrics_fnr (c : ConfusionCounts) :
    (computeMetricsFromCounts c).fnr = divide c.fn (jsAdd c.tp c.fn) := rfl

lemma metrics_tnr (c : ConfusionCounts) :
    (computeMetricsFromCounts c).tnr = divide c.tn (jsAdd c.tn c.fp) := rfl

lemma metrics_fpr (c : ConfusionCounts) :
    (computeMetricsFromCounts c).fpr = divide c.fp (jsAdd c.tn c.fp) := rfl

lemma metrics_ppv (c : ConfusionCounts) :
    (computeMetricsFromCounts c).ppv = divide c.tp (jsAdd c.tp c.fp) := rfl

lemma metrics_npv (c : ConfusionCounts) :
    (computeMetricsFromCounts c).npv = divide c.tn (jsAdd c.tn c.fn) := rfl

lemma metrics_accuracy (c : ConfusionCounts) :
    (computeMetricsFromCounts c).accuracy
      = divide (jsAdd c.tp c.tn) (jsAdd (jsAdd c.tp c.fn) (jsAdd c.tn c.fp)) := rfl

lemma divide_fin (a b : ℚ) (h : b ≠ 0) :
    divide (JSNum.fin a) (JSNum.fin b) = JSNum.fin (a / b) := by
  simp [divide, JSNum.fin, h, Option.map]

lemma jsAdd_fin (a b : ℚ) : jsAdd (JSNum.fin a) (JSNum.fin b) = JSNum.fin (a + b) := rfl

lemma jsSub_one_nan_iff (x : JSNum) :
    jsSub (JSNum.fin 1) x = JSNum.nan ↔ x = JSNum.nan := by
  cases x <;> simp [jsSub, jsBin, JSNum.fin, JSNum.nan]

lemma isPositive_eq_claimPositive (pv : Option Label) (v : Label) :
    isPositive pv v = claimPositive pv v := by
  cases pv with
  | some _ => rfl
  | none =>
    cases v with
    | bool b => cases b <;> rfl
    | num x => rfl
    | str s => rfl
    | other n => rfl

lemma countLoop_spec (pos : Label → Bool) (l : List (Label × Label)) :
    countLoop pos l
      = (l.countP fun x => pos x.1 && pos x.2,
         l.countP fun x => !pos x.1 && !pos x.2,
         l.countP fun x => pos x.1 && !pos x.2,
         l.countP fun x => !pos x.1 && pos x.2) := by
  induction l with
  | nil => rfl
  | cons hd tl ih =>
    obtain ⟨x, y⟩ := hd
    rcases h1 : pos x <;> rcases h2 : pos y <;>
      simp [countLoop, List.countP_cons, h1, h2, ih]

lemma countLoop_sum (pos : Label → Bool) (l : List (Label × Label)) :
    (countLoop pos l).1 + (countLoop pos l).2.1 + (countLoop pos l).2.2.1
      + (countLoop pos l).2.2.2 = l.length := by
  induction l with
  | nil => rfl
  | cons hd tl ih =>
    obtain ⟨x, y⟩ := hd
    rcases h1 : pos x <;> rcases h2 : pos y <;>
      simp [countLoop, h1, h2] <;> omega

lemma countLoop_swap (pos : Label → Bool) (p a : List Label) :
    countLoop pos (a.zip p)
      = ((countLoop pos (p.zip a)).1, (countLoop pos (p.zip a)).2.1,
         (countLoop pos (p.zip a)).2.2.2, (countLoop pos (p.zip a)).2.2.1) := by
  have e1 : ((fun x : Label × Label => pos x.1 && pos x.2) ∘ Prod.swap)
      = fun x : Label × Label => pos x.1 && pos x.2 := by
    funext x; simp [Bool.and_comm]
  have e2 : ((fun x : Label × Label => !pos x.1 && !pos x.2) ∘ Prod.swap)
      = fun x : Label × Label => !pos x.1 && !pos x.2 := by
    funext x; simp [Bool.and_comm]
  have e3 : ((fun x : Label × Label => pos x.1 && !pos x.2) ∘ Prod.swap)
      = fun x : Label × Label => !pos x.1 && pos x.2 := by
    funext x; simp [Bool.and_comm]
  have e4 : ((fun x : Label × Label => !pos x.1 && pos x.2) ∘ Prod.swap)
      = fun x : Label × Label => pos x.1 && !pos x.2 := by
    funext x; simp [Bool.and_comm]
  rw [← List.zip_swap p a, countLoop_spec, countLoop_spec]
  simp only [List.countP_map, e1, e2, e3, e4]

lemma mk_tp (a b c d : ℕ) : (mkCounts a b c d).tp = JSNum.fin (a : ℚ) := rfl

lemma mk_tn (a b c d : ℕ) : (mkCounts a b c d).tn = JSNum.fin (b : ℚ) := rfl

lemma mk_fp (a b c d : ℕ) : (mkCounts a b c d).fp = JSNum.fin (c : ℚ) := rfl

lemma mk_fn (a b c d : ℕ) : (mkCounts a b c d).fn = JSNum.fin (d : ℚ) := rfl

/-- A metric value allowed by the spec's range invariant: NaN, or a finite
value inside `[0, 1]`. -/
def inUnit (x : JSNum) : Prop :=
  x = JSNum.nan ∨ ∃ q : ℚ, x = JSNum.fin q ∧ 0 ≤ q ∧ q ≤ 1

lemma divide_inUnit (a b : ℚ) (h0 : 0 ≤ a) (hab : a ≤ b) :
    inUnit (divide (JSNum.fin a) (JSNum.fin b)) := by
  rcases eq_or_ne b 0 with hb | hb
  · left; simp [divide, JSNum.fin, JSNum.nan, hb]
  · right
    have hbpos : 0 < b := lt_of_le_of_ne (h0.trans hab) (Ne.symm hb)
    exact ⟨a / b, by rw [divide_fin _ _ hb],
      div_nonneg h0 hbpos.le, (div_le_one hbpos).mpr hab⟩

deriving instance DecidableEq for Except

/-! ## Claims -/

/-- C1: `computeMetricsFromCounts` realizes exactly the formula block of spec
section 4.2: every ratio goes through `divide` (NaN on zero denominator),
while `fdr = 1 - ppv` and `for = 1 - npv` are direct subtractions, so they
are NaN exactly when `ppv` / `npv` is NaN. -/
theorem claim1_metrics_follow_spec_formulas :
    ∀ c : ConfusionCounts,
      computeMetricsFromCounts c = specMetricsFromCounts c
      ∧ ((computeMetricsFromCounts c).fdr = JSNum.nan
          ↔ (computeMetricsFromCounts c).ppv = JSNum.nan)
      ∧ ((computeMetricsFromCounts c).forRate = JSNum.nan
          ↔ (computeMetricsFromCounts c).npv = JSNum.nan) := by
  intro c
  exact ⟨rfl, jsSub_one_nan_iff _, jsSub_one_nan_iff _⟩

/-- C2: for equal-length label arrays, `computeCountsFromLabels` returns the
bucket counts of indexes (tp: both positive, tn: neither, fp: predicted
only, fn: actual only), positivity being the rule worded in the claim
(`claimPositive`): strict equality against a supplied `positiveValue`, else
per-type defaults with non-supported types negative, never an error. -/
theorem claim2_counts_bucket_characterization (p a : List Label)
    (pv : Option Label) (h : p.length = a.length) :
    computeCountsFromLabels p a pv = .ok (mkCounts
      ((p.zip a).countP fun x => claimPositive pv x.1 && claimPositive pv x.2)
      ((p.zip a).countP fun x => !claimPositive pv x.1 && !claimPositive pv x.2)
      ((p.zip a).countP fun x => claimPositive pv x.1 && !claimPositive pv x.2)
      ((p.zip a).countP fun x => !claimPositive pv x.1 && claimPositive pv x.2)) := by
  have hpos : isPositive pv = claimPositive pv :=
    funext (isPositive_eq_claimPositive pv)
  unfold computeCountsFromLabels
  rw [if_neg (not_not_intro h)]
  rw [countLoop_spec, hpos]

unseal Rat.add Rat.mul Rat.sub Rat.inv in
theorem claim2_counts_bucket_characterization_witness :
    ([Label.bool true, Label.bool true, Label.bool false, Label.bool false].length
        = [Label.bool true, Label.bool false, Label.bool true, Label.bool false].length)
    ∧ computeCountsFromLabels
        [Label.bool true, Label.bool true, Label.bool false, Label.bool false]
        [Label.bool true, Label.bool false, Label.bool true, Label.bool false]
        none = .ok (mkCounts 1 1 1 1) :=
  ⟨rfl, by
    rw [claim2_counts_bucket_characterization
      [Label.bool true, Label.bool true, Label.bool false, Label.bool false]
      [Label.bool true, Label.bool false, Label.bool true, Label.bool false]
      none rfl]
    decide⟩

/-- C3: `computeCountsFromLabels` fails, with the length-mismatch error and
no partial result, exactly when the input lengths differ; with equal lengths
it always succeeds. -/
theorem claim3_length_mismatch_error (p a : List Label) (pv : Option Label) :
    (p.length ≠ a.length →
      computeCountsFromLabels p a pv
        = .error "predicted and actual must have the same length")
    ∧ (p.length = a.length →
      ∃ c : ConfusionCounts, computeCountsFromLabels p a pv = .ok c) := by
  constructor
  · intro h
    unfold computeCountsFromLabels
    rw [if_pos h]
  · intro h
    unfold computeCountsFromLabels
    rw [if_neg (not_not_intro h)]
    exact ⟨_, rfl⟩

unseal Rat.add Rat.mul Rat.sub Rat.inv in
theorem claim3_length_mismatch_error_witness :
    ([Label.bool true].length ≠ ([Label.bool true, Label.bool false].length)
      ∧ computeCountsFromLabels [Label.bool true]
          [Label.bool true, Label.bool false] none
        = .error "predicted and actual must have the same length")
    ∧ ([Label.bool true].length = [Label.bool false].length
      ∧ ∃ c : ConfusionCounts,
        computeCountsFromLabels [Label.bool true] [Label.bool false] none
          = .ok c) :=
  ⟨⟨by decide,
    (claim3_length_mismatch_error [Label.bool true]
      [Label.bool true, Label.bool false] none).1 (by decide)⟩,
   ⟨rfl,
    (claim3_length_mismatch_error [Label.bool true] [Label.bool false]
      none).2 rfl⟩⟩

unseal Rat.add Rat.mul Rat.sub Rat.inv in
/-- C4: the metric calculator is a total function (the embedding returns a
plain `ConfusionMetrics`, never an exception); at the all-zero counts it
yields `total = 0` and NaN for every derived rate field. -/
theorem claim4_zero_counts_degrade_to_nan :
    (computeMetricsFromCounts (mkCounts 0 0 0 0)).total = JSNum.fin 0
    ∧ (computeMetricsFromCounts (mkCounts 0 0 0 0)).prevalence = JSNum.nan
    ∧ (computeMetricsFromCounts (mkCounts 0 0 0 0)).tpr = JSNum.nan
    ∧ (computeMetricsFromCounts (mkCounts 0 0 0 0)).fpr = JSNum.nan
    ∧ (computeMetricsFromCounts (mkCounts 0 0 0 0)).fnr = JSNum.nan
    ∧ (computeMetricsFromCounts (mkCounts 0 0 0 0)).tnr = JSNum.nan
    ∧ (computeMetricsFromCounts (mkCounts 0 0 0 0)).ppv = JSNum.nan
    ∧ (computeMetricsFromCounts (mkCounts 0 0 0 0)).npv = JSNum.nan
    ∧ (computeMetricsFromCounts (mkCounts 0 0 0 0)).lrPlus = JSNum.nan
    ∧ (computeMetricsFromCounts (mkCounts 0 0 0 0)).lrMinus = JSNum.nan
    ∧ (computeMetricsFromCounts (mkCounts 0 0 0 0)).accuracy = JSNum.nan
    ∧ (computeMetricsFromCounts (mkCounts 0 0 0 0)).fdr = JSNum.nan
    ∧ (computeMetricsFromCounts (mkCounts 0 0 0 0)).forRate = JSNum.nan
    ∧ (computeMetricsFromCounts (mkCounts 0 0 0 0)).markedness = JSNum.nan
    ∧ (computeMetricsFromCounts (mkCounts 0 0 0 0)).dor = JSNum.nan
    ∧ (computeMetricsFromCounts (mkCounts 0 0 0 0)).balancedAccuracy = JSNum.nan
    ∧ (computeMetricsFromCounts (mkCounts 0 0 0 0)).f1 = JSNum.nan
    ∧ (computeMetricsFromCounts (mkCounts 0 0 0 0)).fm = JSNum.nan
    ∧ (computeMetricsFromCounts (mkCounts 0 0 0 0)).mcc = JSNum.nan
    ∧ (computeMetricsFromCounts (mkCounts 0 0 0 0)).ts = JSNum.nan := by
  decide

/-- C5: the facade equals the composition of the classifier and the metric
calculator, and it fails exactly when, and exactly how, the classifier
fails. -/
theorem claim5_facade_composition (p a : List Label) (pv : Option Label) :
    computeMetricsFromLabels p a pv
      = Except.map computeMetricsFromCounts (computeCountsFromLabels p a pv)
    ∧ (∀ e : String,
        computeMetricsFromLabels p a pv = .error e
          ↔ computeCountsFromLabels p a pv = .error e) := by
  unfold computeMetricsFromLabels
  cases computeCountsFromLabels p a pv <;> simp [Except.map]

/-- C6: on counts with non-negative integer fields, `total` is the finite
non-negative integer `tp + tn + fp + fn`, never NaN. -/
theorem claim6_total_is_sum (tp tn fp fn : ℕ) :
    (computeMetricsFromCounts (mkCounts tp tn fp fn)).total
      = JSNum.fin ((tp + tn + fp + fn : ℕ) : ℚ) := by
  show JSNum.fin (((tp : ℚ) + fn) + ((tn : ℚ) + fp))
    = JSNum.fin ((tp + tn + fp + fn : ℕ) : ℚ)
  refine congrArg JSNum.fin ?_
  push_cast
  ring

/-- C7: on counts with non-negative integer fields, `tpr + fnr = 1` whenever
`tp + fn` is nonzero and `tnr + fpr = 1` whenever `tn + fp` is nonzero
(exactly, in the exact-rational embedding). -/
theorem claim7_complementary_rates (tp tn fp fn : ℕ) :
    (tp + fn ≠ 0 →
      jsAdd (computeMetricsFromCounts (mkCounts tp tn fp fn)).tpr
        (computeMetricsFromCounts (mkCounts tp tn fp fn)).fnr = JSNum.fin 1)
    ∧ (tn + fp ≠ 0 →
      jsAdd (computeMetricsFromCounts (mkCounts tp tn fp fn)).tnr
        (computeMetricsFromCounts (mkCounts tp tn fp fn)).fpr = JSNum.fin 1) := by
  constructor
  · intro h
    have hs : ((tp : ℚ) + (fn : ℚ)) ≠ 0 := by
      have hq : ((tp + fn : ℕ) : ℚ) ≠ 0 := Nat.cast_ne_zero.mpr h
      push_cast at hq
      exact hq
    rw [metrics_tpr, metrics_fnr, mk_tp, mk_fn, jsAdd_fin, divide_fin _ _ hs,
      divide_fin _ _ hs, jsAdd_fin]
    refine congrArg JSNum.fin ?_
    rw [div_add_div_same, div_self hs]
  · intro h
    have hs : ((tn : ℚ) + (fp : ℚ)) ≠ 0 := by
      have hq : ((tn + fp : ℕ) : ℚ) ≠ 0 := Nat.cast_ne_zero.mpr h
      push_cast at hq
      exact hq
    rw [metrics_tnr, metrics_fpr, mk_tn, mk_fp, jsAdd_fin, divide_fin _ _ hs,
      divide_fin _ _ hs, jsAdd_fin]
    refine congrArg JSNum.fin ?_
    rw [div_add_div_same, div_self hs]

theorem claim7_complementary_rates_witness :
    ((1 + 1 : ℕ) ≠ 0
      ∧ jsAdd (computeMetricsFromCounts (mkCounts 1 1 1 1)).tpr
          (computeMetricsFromCounts (mkCounts 1 1 1 1)).fnr = JSNum.fin 1)
    ∧ ((1 + 1 : ℕ) ≠ 0
      ∧ jsAdd (computeMetricsFromCounts (mkCounts 1 1 1 1)).tnr
          (computeMetricsFromCounts (mkCounts 1 1 1 1)).fpr = JSNum.fin 1) :=
  ⟨⟨by decide, (claim7_complementary_rates 1 1 1 1).1 (by decide)⟩,
   ⟨by decide, (claim7_complementary_rates 1 1 1 1).2 (by decide)⟩⟩

/-- C8: for counts with non-negative integer fields and both `tp + fn` and
`tn + fp` positive, each of `tpr`, `tnr`, `ppv`, `npv`, `accuracy` is NaN or
lies in `[0, 1]`. -/
theorem claim8_rates_in_unit_interval (tp tn fp fn : ℕ)
    (h1 : 0 < tp + fn) (h2 : 0 < tn + fp) :
    inUnit (computeMetricsFromCounts (mkCounts tp tn fp fn)).tpr
    ∧ inUnit (computeMetricsFromCounts (mkCounts tp tn fp fn)).tnr
    ∧ inUnit (computeMetricsFromCounts (mkCounts tp tn fp fn)).ppv
    ∧ inUnit (computeMetricsFromCounts (mkCounts tp tn fp fn)).npv
    ∧ inUnit (computeMetricsFromCounts (mkCounts tp tn fp fn)).accuracy := by
  refine ⟨?_, ?_, ?_, ?_, ?_⟩
  · rw [metrics_tpr, mk_tp, mk_fn, jsAdd_fin]
    exact divide_inUnit _ _ (Nat.cast_nonneg tp)
      (le_add_of_nonneg_right (Nat.cast_nonneg fn))
  · rw [metrics_tnr, mk_tn, mk_fp, jsAdd_fin]
    exact divide_inUnit _ _ (Nat.cast_nonneg tn)
      (le_add_of_nonneg_right (Nat.cast_nonneg fp))
  · rw [metrics_ppv, mk_tp, mk_fp, jsAdd_fin]
    exact divide_inUnit _ _ (Nat.cast_nonneg tp)
      (le_add_of_nonneg_right (Nat.cast_nonneg fp))
  · rw [metrics_npv, mk_tn, mk_fn, jsAdd_fin]
    exact divide_inUnit _ _ (Nat.cast_nonneg tn)
      (le_add_of_nonneg_right (Nat.cast_nonneg fn))
  · rw [metrics_accuracy, mk_tp, mk_tn, mk_fp, mk_fn, jsAdd_fin, jsAdd_fin,
      jsAdd_fin, jsAdd_fin]
    refine divide_inUnit _ _ (by positivity) ?_
    have hfn : (0 : ℚ) ≤ (fn : ℚ) := Nat.cast_nonneg fn
    have hfp : (0 : ℚ) ≤ (fp : ℚ) := Nat.cast_nonneg fp
    linarith

theorem claim8_rates_in_unit_interval_witness :
    (0 < 1 + 1 ∧ 0 < 1 + 1)
    ∧ (inUnit (computeMetricsFromCounts (mkCounts 1 1 1 1)).tpr
      ∧ inUnit (computeMetricsFromCounts (mkCounts 1 1 1 1)).tnr
      ∧ inUnit (computeMetricsFromCounts (mkCounts 1 1 1 1)).ppv
      ∧ inUnit (computeMetricsFromCounts (mkCounts 1 1 1 1)).npv
      ∧ inUnit (computeMetricsFromCounts (mkCounts 1 1 1 1)).accuracy) :=
  ⟨⟨by decide, by decide⟩,
   claim8_rates_in_unit_interval 1 1 1 1 (by decide) (by decide)⟩

/-- C9: on equal-length inputs the classifier returns four non-negative
integer counts summing to the common input length. -/
theorem claim9_counts_sum_to_length (p a : List Label) (pv : Option Label)
    (h : p.length = a.length) :
    ∃ t n f g : ℕ,
      computeCountsFromLabels p a pv = .ok (mkCounts t n f g)
      ∧ t + n + f + g = p.length := by
  refine ⟨(countLoop (isPositive pv) (p.zip a)).1,
    (countLoop (isPositive pv) (p.zip a)).2.1,
    (countLoop (isPositive pv) (p.zip a)).2.2.1,
    (countLoop (isPositive pv) (p.zip a)).2.2.2, ?_, ?_⟩
  · unfold computeCountsFromLabels
    rw [if_neg (not_not_intro h)]
  · rw [countLoop_sum, List.length_zip, h, Nat.min_self]

theorem claim9_counts_sum_to_length_witness :
    ([Label.bool true, Label.bool false].length
        = [Label.bool false, Label.bool false].length)
    ∧ ∃ t n f g : ℕ,
      computeCountsFromLabels [Label.bool true, Label.bool false]
          [Label.bool false, Label.bool false] none = .ok (mkCounts t n f g)
      ∧ t + n + f + g = [Label.bool true, Label.bool false].length :=
  ⟨rfl, claim9_counts_sum_to_length [Label.bool true, Label.bool false]
    [Label.bool false, Label.bool false] none rfl⟩

/-- C10: swapping the `predicted` and `actual` arguments leaves `tp` and
`tn` unchanged and exchanges `fp` with `fn`. -/
theorem claim10_swap_exchanges_fp_fn (p a : List Label) (pv : Option Label)
    (h : p.length = a.length) :
    computeCountsFromLabels a p pv
      = Except.map (fun c => ⟨c.tp, c.tn, c.fn, c.fp⟩)
          (computeCountsFromLabels p a pv) := by
  unfold computeCountsFromLabels
  rw [if_neg (not_not_intro h.symm), if_neg (not_not_intro h), countLoop_swap]
  rfl

theorem claim10_swap_exchanges_fp_fn_witness :
    ([Label.bool true].length = [Label.bool false].length)
    ∧ computeCountsFromLabels [Label.bool false] [Label.bool true] none
      = Except.map (fun c => ⟨c.tp, c.tn, c.fn, c.fp⟩)
          (computeCountsFromLabels [Label.bool true] [Label.bool false] none) :=
  ⟨rfl, claim10_swap_exchanges_fp_fn [Label.bool true] [Label.bool false]
    none rfl⟩
